import Mathlib

/-!
Verification of the Deduct puzzle engine.

The repository contains a 7x7 number-deletion puzzle: a grid of positive
integers, a hidden solution mask of kept cells, and per-row/column target
sums.  Three generator variants exist in the sources (the enhanced
generator in `src/js/puzzle-generator.js`, the basic generator in
`src/unnamed/part_001`, and the intermediate generator in
`src/unnamed/part_003`), together with the player-facing `GameState`
(`src/unnamed/part_000`).

This file shallowly embeds the relevant functions.  JavaScript number
arithmetic on these small integer values is exact, so values are embedded
as `Int`.  Arrays indexed 0..6 are embedded as functions out of `Nat`
(reads are always in range in the embedded code paths) or as `List`s where
the source builds arrays by pushing.  Randomness: every `Math.random()`
decision point becomes an explicit parameter (a draw function), so each
sampler is a pure function of its draws.
-/

namespace Deduct

/-- A 7x7 grid of values, indexed `grid i j` = row `i`, column `j`. -/
abbrev Grid := Nat → Nat → Int

/-- A 7x7 boolean matrix: `true` = the cell is kept. -/
abbrev Mask := Nat → Nat → Bool

/-- Functional update of a single cell (models `mask[r][c] = b`). -/
def setCell (m : Mask) (r c : Nat) (b : Bool) : Mask :=
  fun r' c' => if r' = r ∧ c' = c then b else m r' c'

/-- The all-true mask `Array(size).fill().map(() => Array(size).fill(true))`. -/
def allTrueMask : Mask := fun _ _ => true

/-- The all-false mask. -/
def allFalseMask : Mask := fun _ _ => false

/-- `mask[row].filter(x => x).length`: number of kept cells in a row. -/
def rowCount (m : Mask) (r : Nat) : Nat :=
  ((List.range 7).filter (fun c => m r c)).length

/-- `mask.map(r => r[col]).filter(x => x).length`: kept cells in a column. -/
def colCount (m : Mask) (c : Nat) : Nat :=
  ((List.range 7).filter (fun r => m r c)).length

/-- The `{ row, col }` pair of target arrays returned by `calculateTargets`. -/
structure Targets where
  row : List Int
  col : List Int
deriving DecidableEq

/-- The row-sum loop shared by `calculateTargets` and `isValidSolution`:
sum of `grid[i][j]` over kept cells, accumulated left to right. -/
def maskedRowSum (g : Grid) (m : Mask) (i : Nat) : Int :=
  (List.range 7).foldl (fun s j => if m i j then s + g i j else s) 0

/-- The column-sum loop shared by `calculateTargets` and
`isValidSolution`. -/
def maskedColSum (g : Grid) (m : Mask) (j : Nat) : Int :=
  (List.range 7).foldl (fun s i => if m i j then s + g i j else s) 0

/-- `PuzzleGenerator.calculateTargets` (identical in all three variants):
row `i`'s target is the sum of `grid[i][j]` over kept cells, accumulated
left to right as in the source loop; symmetrically for columns. -/
def calculateTargets (g : Grid) (m : Mask) : Targets :=
  { row := (List.range 7).map (maskedRowSum g m)
    col := (List.range 7).map (maskedColSum g m) }

/-- Spec-side formula (section 8 of the spec): the masked row sum
written as a filtered finite sum.  Used to compare the code's
`calculateTargets` against the specification's invariant. -/
def specRowTarget (g : Grid) (m : Mask) (i : Nat) : Int :=
  ∑ j ∈ (Finset.range 7).filter (fun j => m i j = true), g i j

/-- Spec-side formula for the masked column sum. -/
def specColTarget (g : Grid) (m : Mask) (j : Nat) : Int :=
  ∑ i ∈ (Finset.range 7).filter (fun i => m i j = true), g i j

/-- `grid[i].reduce((a, b) => a + b, 0)`: the full (undeleted) row sum. -/
def fullRowSum (g : Grid) (i : Nat) : Int :=
  (List.range 7).foldl (fun s j => s + g i j) 0

/-- Full (undeleted) column sum. -/
def fullColSum (g : Grid) (j : Nat) : Int :=
  (List.range 7).foldl (fun s i => s + g i j) 0

lemma foldl_if_eq_sum_filter (p : Nat → Bool) (v : Nat → Int) (n : Nat) :
    (List.range n).foldl (fun s j => if p j then s + v j else s) 0 =
      ∑ j ∈ (Finset.range n).filter (fun j => p j = true), v j := by
  induction n with
  | zero => simp
  | succ k ih =>
    rw [List.range_succ, List.foldl_append]
    simp only [List.foldl_cons, List.foldl_nil, ih, Finset.range_succ,
      Finset.filter_insert]
    by_cases hp : p k = true
    · rw [if_pos hp, if_pos hp,
        Finset.sum_insert (by simp)]
      ring
    · rw [if_neg (by simp [hp]), if_neg hp]

lemma getD_map_range (f : Nat → Int) (i : Nat) (hi : i < 7) :
    (((List.range 7).map f).getD i 0) = f i := by
  rw [List.getD_eq_getElem _ _ (by simpa using hi)]
  simp

/-!
## The basic generator of `src/unnamed/part_001`
-/

/-- Difficulty profile of the part_001 generator. -/
structure SettingsP1 where
  minValue : Int
  maxValue : Int
  minKeepCells : Nat
  maxKeepCells : Nat
  maxDuplicates : Nat
deriving DecidableEq

/-- The `difficultySettings` table of part_001's constructor, as a lookup
that is `none` for unrecognized names (`difficultySettings[difficulty]`
is `undefined` in that case). -/
def difficultySettingsP1 (difficulty : String) : Option SettingsP1 :=
  if difficulty = "easy" then
    some { minValue := 1, maxValue := 6, minKeepCells := 4, maxKeepCells := 6
           maxDuplicates := 4 }
  else if difficulty = "medium" then
    some { minValue := 1, maxValue := 9, minKeepCells := 2, maxKeepCells := 5
           maxDuplicates := 3 }
  else if difficulty = "hard" then
    some { minValue := 1, maxValue := 9, minKeepCells := 1, maxKeepCells := 6
           maxDuplicates := 2 }
  else none

/-- `difficultySettings[difficulty] || difficultySettings.medium`. -/
def settingsForP1 (difficulty : String) : SettingsP1 :=
  (difficultySettingsP1 difficulty).getD
    { minValue := 1, maxValue := 9, minKeepCells := 2, maxKeepCells := 5
      maxDuplicates := 3 }

/-- Swap of two list positions, used by the Fisher-Yates shuffle. -/
def listSwap [Inhabited α] (l : List α) (i j : Nat) : List α :=
  (l.set i (l.getD j default)).set j (l.getD i default)

/-- One Fisher-Yates pass from position `i` downwards; `draw i` stands for
the `Math.random()` value drawn at position `i`, and the source's
`Math.floor(Math.random() * (i + 1))` becomes `draw i % (i + 1)`. -/
def shuffleGo [Inhabited α] (draw : Nat → Nat) : List α → Nat → List α
  | arr, 0 => arr
  | arr, i + 1 => shuffleGo draw (listSwap arr (i + 1) (draw (i + 1) % (i + 2))) i

/-- `PuzzleGenerator.shuffleArray` (part_001), a Fisher-Yates shuffle over a
copy of the array, parameterized by its random draws. -/
def shuffleArray [Inhabited α] (draw : Nat → Nat) (l : List α) : List α :=
  shuffleGo draw l (l.length - 1)

/-- Random draws consumed by `createValidSolutionMask`: the per-row
keep-count draw, the per-row index shuffle, and the per-column shuffles
of the repair phase.  Note the repair phase's `shuffleArray(rowsToAdd)` /
`shuffleArray(rowsToRemove)` calls shuffle a copy and their return value
is discarded, so the `colAddShuffle` / `colRemoveShuffle` draws are
consumed without affecting the mask (the repair walks candidate rows in
ascending order). -/
structure MaskDrawsP1 where
  rowRand : Nat → Nat
  rowShuffle : Nat → Nat → Nat
  colAddShuffle : Nat → Nat → Nat
  colRemoveShuffle : Nat → Nat → Nat

/-- Row phase of `createValidSolutionMask`: row `i` keeps the first
`rowKeepCount` entries of its shuffled index list. -/
def maskRowPhase (st : SettingsP1) (dr : MaskDrawsP1) : Mask :=
  (List.range 7).foldl
    (fun m i =>
      let range := st.maxKeepCells - st.minKeepCells + 1
      let rowKeepCount := st.minKeepCells + dr.rowRand i % range
      let rowIndices := shuffleArray (dr.rowShuffle i) (List.range 7)
      (rowIndices.take rowKeepCount).foldl (fun m' c => setCell m' i c true) m)
    allFalseMask

/-- Column-repair phase of `createValidSolutionMask`: columns outside the
`[minKeepCells, maxKeepCells]` window get cells added (or removed) in the
first candidate rows in ascending order — the source's
`this.shuffleArray(rowsToAdd)` / `this.shuffleArray(rowsToRemove)` calls
shuffle a copy of the list and discard it, so they have no effect on the
mask. -/
def maskColPhase (st : SettingsP1) (m0 : Mask) : Mask :=
  (List.range 7).foldl
    (fun m j =>
      let cc := colCount m j
      if cc < st.minKeepCells then
        let rowsToAdd := (List.range 7).filter (fun i => m i j = false)
        (rowsToAdd.take (st.minKeepCells - cc)).foldl
          (fun m' i => setCell m' i j true) m
      else if st.maxKeepCells < cc then
        let rowsToRemove := (List.range 7).filter (fun i => m i j = true)
        (rowsToRemove.take (cc - st.maxKeepCells)).foldl
          (fun m' i => setCell m' i j false) m
      else m)
    m0

/-- `PuzzleGenerator.createValidSolutionMask` (part_001).  The source always
returns the mask it built (it has no failure return). -/
def createValidSolutionMask (st : SettingsP1) (dr : MaskDrawsP1) : Mask :=
  maskColPhase st (maskRowPhase st dr)

/-- Random draws consumed by part_001's `createGrid`: a draw per
(row, column, resampling attempt) for the row phase, and a draw per
(column, position, resampling attempt) for the column duplicate fix. -/
structure GridDrawsP1 where
  cell : Nat → Nat → Nat → Nat
  fix : Nat → Nat → Nat → Nat

/-- The bounded resampling `do { value = ... } while (usedCounts[value] >=
maxDuplicates && attempts < 50)` of `createGrid`'s row phase.  `used` maps a
value to how often it already occurs in the row (missing keys read as 0). -/
def pickValue (st : SettingsP1) (used : Int → Nat) (draw : Nat → Nat) : Nat → Nat → Int
  | attempt, fuel =>
    let value := st.minValue + (draw attempt % (st.maxValue - st.minValue + 1).toNat : Nat)
    match fuel with
    | 0 => value
    | fuel + 1 =>
      if st.maxDuplicates ≤ used value then pickValue st used draw (attempt + 1) fuel
      else value

/-- Row phase of `createGrid`: fill a row left to right, resampling (up to
50 attempts) values that would exceed the per-row duplicate cap. -/
def buildRow (st : SettingsP1) (draw2 : Nat → Nat → Nat) : List Int :=
  ((List.range 7).foldl
    (fun acc j =>
      let v := pickValue st acc.2 (draw2 j) 0 49
      (acc.1 ++ [v], fun w => if w = v then acc.2 w + 1 else acc.2 w))
    (([] : List Int), fun _ => 0)).1

/-- Count of occurrences of value `v` in column `j` of a list-of-rows grid. -/
def colValueCount (rows : List (List Int)) (j : Nat) (v : Int) : Nat :=
  ((List.range 7).filter (fun i => (rows.getD i []).getD j 0 = v)).length

/-- The unbounded resampling `do { newValue = ... } while
(colCounts[newValue] >= maxDuplicates)` in `createGrid`'s column fix.  The
source has no attempt bound here; we bound the resampling by a fuel of 50
draws and return the last draw on exhaustion.  No theorem below depends on
this function's behaviour, only on it being a function of its draws. -/
def pickFixValue (st : SettingsP1) (counts : Int → Nat) (draw : Nat → Nat) : Nat → Nat → Int
  | attempt, fuel =>
    let value := st.minValue + (draw attempt % (st.maxValue - st.minValue + 1).toNat : Nat)
    match fuel with
    | 0 => value
    | fuel + 1 =>
      if st.maxDuplicates ≤ counts value then pickFixValue st counts draw (attempt + 1) fuel
      else value

/-- Replace row `i`'s entry in column `j` of a list-of-rows grid. -/
def setGridCell (rows : List (List Int)) (i j : Nat) (v : Int) : List (List Int) :=
  rows.set i ((rows.getD i []).set j v)

/-- Column duplicate fix of `createGrid`: for each column, for each value
(ascending, as JavaScript iterates integer-like object keys) occurring more
than `maxDuplicates` times, the occurrences beyond the cap are replaced by
resampled values, the occurrence counts being updated incrementally. -/
def fixColumn (st : SettingsP1) (dr : GridDrawsP1) (j : Nat) (rows : List (List Int)) :
    List (List Int) :=
  let step : List (List Int) × (Int → Nat) → Nat → List (List Int) × (Int → Nat) :=
    fun acc2 pos =>
      let newValue := pickFixValue st acc2.2 (dr.fix j pos) 0 49
      let oldValue := (acc2.1.getD pos []).getD j 0
      (setGridCell acc2.1 pos j newValue,
       fun w =>
         if w = newValue then
           (if w = oldValue then acc2.2 w else acc2.2 w + 1)
         else if w = oldValue then acc2.2 w - 1
         else acc2.2 w)
  let valueStep : Nat → List (List Int) × (Int → Nat) → List (List Int) × (Int → Nat) :=
    fun k acc =>
      let v := st.minValue + (k : Int)
      if st.maxDuplicates < acc.2 v then
        let positions := (List.range 7).filter (fun i => (acc.1.getD i []).getD j 0 = v)
        let toChange := positions.drop st.maxDuplicates
        toChange.foldl step acc
      else acc
  ((st.maxValue - st.minValue + 1).toNat.fold valueStep
    (rows, fun v => colValueCount rows j v)).1

/-- `PuzzleGenerator.createGrid` (part_001): fill rows under the per-row
duplicate cap, then fix columns that exceed the cap. -/
def createGrid (st : SettingsP1) (dr : GridDrawsP1) : Grid :=
  let rows0 := (List.range 7).map (fun i => buildRow st (dr.cell i))
  let rows1 := (List.range 7).foldl (fun rows j => fixColumn st dr j rows) rows0
  fun i j => (rows1.getD i []).getD j 0

/-- `mask[i].filter(x => !x).length`: deleted cells in a row. -/
def rowDeletedCount (m : Mask) (i : Nat) : Nat :=
  ((List.range 7).filter (fun j => m i j = false)).length

/-- Deleted cells in a column. -/
def colDeletedCount (m : Mask) (j : Nat) : Nat :=
  ((List.range 7).filter (fun i => m i j = false)).length

/-- `PuzzleGenerator.validatePuzzle` (part_001): reject when a full row or
column sum already equals its target, or when a row's/column's deletion
count falls outside `[size - maxKeepCells, size - minKeepCells]`. -/
def validatePuzzle (st : SettingsP1) (g : Grid) (m : Mask) (t : Targets) : Bool :=
  ((List.range 7).all (fun i =>
      !(fullRowSum g i = t.row.getD i 0 : Bool) &&
      !(rowDeletedCount m i < 7 - st.maxKeepCells) &&
      !(7 - st.minKeepCells < rowDeletedCount m i))) &&
  ((List.range 7).all (fun j =>
      !(fullColSum g j = t.col.getD j 0 : Bool) &&
      !(colDeletedCount m j < 7 - st.maxKeepCells) &&
      !(7 - st.minKeepCells < colDeletedCount m j)))

/-- The puzzle record handed to the game-state layer.  (`patternType`,
`validated`, `solvingStats` and the attached hint system in the richer
variants are presentation metadata and carry no generation logic.) -/
structure Puzzle where
  grid : Grid
  solutionMask : Mask
  rowTargets : List Int
  colTargets : List Int
  difficulty : String

/-- All random draws of one part_001 generation attempt. -/
structure DrawsP1 where
  mask : MaskDrawsP1
  grid : GridDrawsP1

/-- `PuzzleGenerator.attemptGeneration` (part_001): sample a mask, sample a
grid, derive targets, and return the puzzle when `validatePuzzle` accepts.
(The source's `if (!solutionMask) return null` guard is dead code because
`createValidSolutionMask` always returns a mask.) -/
def attemptGenerationP1 (difficulty : String) (dr : DrawsP1) : Option Puzzle :=
  let st := settingsForP1 difficulty
  let solutionMask := createValidSolutionMask st dr.mask
  let grid := createGrid st dr.grid
  let targets := calculateTargets grid solutionMask
  if validatePuzzle st grid solutionMask targets then
    some { grid := grid, solutionMask := solutionMask
           rowTargets := targets.row, colTargets := targets.col
           difficulty := difficulty }
  else none

/-- `PuzzleGenerator.generateFallbackPuzzle` (part_001): a fixed grid and
targets with an all-true `solutionMask`, stamped with the requested
difficulty. -/
def generateFallbackPuzzleP1 (difficulty : String) : Puzzle :=
  { grid := fun i j =>
      (([[3, 7, 2, 8, 1, 6, 4],
         [5, 1, 9, 3, 7, 2, 8],
         [2, 8, 4, 6, 3, 1, 7],
         [7, 3, 6, 1, 9, 4, 2],
         [1, 5, 8, 7, 2, 9, 3],
         [9, 2, 1, 4, 8, 3, 6],
         [4, 6, 3, 2, 5, 7, 1]] : List (List Int)).getD i []).getD j 0
    solutionMask := allTrueMask
    rowTargets := [15, 20, 18, 16, 22, 19, 14]
    colTargets := [17, 21, 19, 15, 18, 16, 20]
    difficulty := difficulty }

/-- `PuzzleGenerator.generate` (part_001): run attempts in order and return
the first successful puzzle, falling back to the static puzzle when every
attempt fails.  `attempts` lists the outcome of each loop iteration (one
entry per iteration of the bounded `maxAttempts` loop). -/
def generateP1 (difficulty : String) : List (Option Puzzle) → Puzzle
  | [] => generateFallbackPuzzleP1 difficulty
  | some p :: _ => p
  | none :: rest => generateP1 difficulty rest

/-!
## The intermediate generator of `src/unnamed/part_003`
-/

/-- Difficulty profile of the part_003 generator (the solver-related fields
`requireUniqueSolution`, `minForcedMoves`, `maxAmbiguity` are never read by
the generation path embedded here). -/
structure SettingsP3 where
  minValue : Int
  maxValue : Int
  minDeletions : Nat
  maxDeletions : Nat
deriving DecidableEq

/-- The `difficultySettings` table of part_003's constructor. -/
def difficultySettingsP3 (difficulty : String) : Option SettingsP3 :=
  if difficulty = "easy" then
    some { minValue := 1, maxValue := 5, minDeletions := 8, maxDeletions := 12 }
  else if difficulty = "medium" then
    some { minValue := 1, maxValue := 8, minDeletions := 14, maxDeletions := 18 }
  else if difficulty = "hard" then
    some { minValue := 2, maxValue := 11, minDeletions := 20, maxDeletions := 26 }
  else none

/-- `difficultySettings[difficulty] || difficultySettings.medium` (part_003). -/
def settingsForP3 (difficulty : String) : SettingsP3 :=
  (difficultySettingsP3 difficulty).getD
    { minValue := 1, maxValue := 8, minDeletions := 14, maxDeletions := 18 }

/-- `PuzzleGenerator.createBalancedGrid` (part_003): each cell drawn
uniformly from `[minValue, maxValue]`; `draw i j` is the random draw for
cell `(i, j)`. -/
def createBalancedGrid (st : SettingsP3) (draw : Nat → Nat → Nat) : Grid :=
  fun i j => st.minValue + (draw i j % (st.maxValue - st.minValue + 1).toNat : Nat)

/-- One step of part_003's `createSolutionMask` deletion loop: try deleting
the cell unless the target deletion count is already reached; restore it
when the deletion would leave its row or column with fewer than 2 kept
cells. -/
def maskDelStepP3 (targetDeletions : Nat) (acc : Mask × Nat) (pos : Nat × Nat) :
    Mask × Nat :=
  if targetDeletions ≤ acc.2 then acc
  else
    let m' := setCell acc.1 pos.1 pos.2 false
    if rowCount m' pos.1 < 2 ∨ colCount m' pos.2 < 2 then acc
    else (m', acc.2 + 1)

/-- `PuzzleGenerator.createSolutionMask` (part_003): walk the shuffled
position list (`positions` is the shuffle's output), deleting cells under
the ≥ 2 kept-per-row/column floor; fail unless exactly `targetDeletions`
deletions were placed. -/
def createSolutionMaskP3 (positions : List (Nat × Nat)) (targetDeletions : Nat) :
    Option Mask :=
  let acc := positions.foldl (maskDelStepP3 targetDeletions) (allTrueMask, 0)
  if acc.2 = targetDeletions then some acc.1 else none

/-- `PuzzleGenerator.isValidConfiguration` (part_003): only rejects targets
that exceed the full row/column sum or fall below `minValue`; note it does
NOT reject a target equal to the full sum. -/
def isValidConfiguration (st : SettingsP3) (g : Grid) (t : Targets) : Bool :=
  (List.range 7).all (fun i =>
    !(fullRowSum g i < t.row.getD i 0) && !(t.row.getD i 0 < st.minValue) &&
    !(fullColSum g i < t.col.getD i 0) && !(t.col.getD i 0 < st.minValue))

/-- `PuzzleGenerator.attemptGeneration` (part_003): balanced grid, shuffled
deletion mask, targets, then the quick `isValidConfiguration` gate.
`gridDraw` supplies the grid's random draws, `positions` the shuffled
deletion order, and `delRand` the deletion-count draw. -/
def attemptGenerationP3 (difficulty : String) (gridDraw : Nat → Nat → Nat)
    (positions : List (Nat × Nat)) (delRand : Nat) : Option Puzzle :=
  let st := settingsForP3 difficulty
  let grid := createBalancedGrid st gridDraw
  let deletionCount := st.minDeletions + delRand % (st.maxDeletions - st.minDeletions + 1)
  match createSolutionMaskP3 positions deletionCount with
  | none => none
  | some solutionMask =>
    let targets := calculateTargets grid solutionMask
    if isValidConfiguration st grid targets then
      some { grid := grid, solutionMask := solutionMask
             rowTargets := targets.row, colTargets := targets.col
             difficulty := difficulty }
    else none

/-!
## The enhanced generator of `src/js/puzzle-generator.js`
-/

/-- Helper turning a 7x7 list-of-lists of values into a `Grid`. -/
def gridOfLists (rows : List (List Int)) : Grid :=
  fun i j => (rows.getD i []).getD j 0

/-- Helper turning a 7x7 list-of-lists of booleans into a `Mask`. -/
def maskOfLists (rows : List (List Bool)) : Mask :=
  fun i j => (rows.getD i []).getD j false

/-- The `easy` entry of `generateFallbackPuzzle`'s `fallbackPuzzles` table
(src/js and part_003 embed the same data). -/
def easyFallback : Puzzle :=
  { grid := gridOfLists
      [[3, 2, 4, 1, 5, 2, 3],
       [1, 4, 2, 3, 2, 4, 1],
       [5, 1, 3, 2, 4, 1, 5],
       [2, 3, 1, 4, 1, 5, 2],
       [4, 2, 5, 1, 3, 2, 4],
       [1, 5, 2, 3, 2, 4, 1],
       [3, 1, 4, 2, 5, 1, 3]]
    rowTargets := [15, 11, 16, 12, 14, 10, 13]
    colTargets := [14, 12, 15, 10, 16, 11, 13]
    solutionMask := maskOfLists
      [[true, false, true, true, true, true, true],
       [true, true, false, true, true, true, false],
       [true, true, true, false, true, true, true],
       [false, true, true, true, false, true, true],
       [true, false, true, true, true, false, true],
       [true, true, false, true, false, true, true],
       [true, true, true, false, true, true, false]]
    difficulty := "easy" }

/-- The `medium` fallback puzzle of src/js. -/
def mediumFallback : Puzzle :=
  { grid := gridOfLists
      [[7, 3, 8, 2, 6, 4, 9],
       [4, 9, 1, 7, 3, 8, 2],
       [2, 6, 4, 9, 1, 5, 7],
       [8, 1, 7, 3, 9, 2, 6],
       [5, 8, 2, 6, 4, 7, 1],
       [9, 4, 6, 1, 8, 3, 5],
       [1, 7, 3, 5, 2, 9, 4]]
    rowTargets := [24, 18, 22, 20, 15, 26, 17]
    colTargets := [25, 20, 19, 18, 21, 24, 15]
    solutionMask := maskOfLists
      [[true, false, true, false, true, true, true],
       [false, true, true, true, false, true, true],
       [true, true, false, true, true, false, true],
       [true, false, true, true, true, false, true],
       [false, true, true, false, true, true, false],
       [true, true, true, false, true, true, true],
       [true, true, false, true, false, true, true]]
    difficulty := "medium" }

/-- The `hard` fallback puzzle of src/js. -/
def hardFallback : Puzzle :=
  { grid := gridOfLists
      [[11, 5, 9, 3, 12, 7, 10],
       [6, 12, 4, 10, 5, 11, 3],
       [9, 3, 11, 6, 8, 4, 12],
       [4, 10, 5, 12, 3, 9, 6],
       [12, 6, 8, 4, 11, 5, 10],
       [7, 11, 3, 9, 6, 12, 4],
       [10, 4, 12, 5, 9, 3, 11]]
    rowTargets := [28, 20, 35, 18, 30, 24, 32]
    colTargets := [33, 25, 28, 19, 31, 22, 29]
    solutionMask := maskOfLists
      [[false, true, true, false, true, false, true],
       [true, false, false, true, true, true, false],
       [true, false, true, true, true, false, true],
       [false, true, false, true, false, true, true],
       [true, false, true, false, true, true, true],
       [true, true, false, true, false, true, false],
       [true, false, true, false, true, false, true]]
    difficulty := "hard" }

/-- `PuzzleGenerator.generateFallbackPuzzle` (src/js):
`fallbackPuzzles[this.difficulty] || fallbackPuzzles.medium`. -/
def generateFallbackPuzzleJs (difficulty : String) : Puzzle :=
  if difficulty = "easy" then easyFallback
  else if difficulty = "medium" then mediumFallback
  else if difficulty = "hard" then hardFallback
  else mediumFallback

/-- `PuzzleGenerator.generate` (src/js): same bounded retry loop as
part_001, with the per-difficulty fallback table.  (The attached
`HintSystem` carries no generation data and is omitted.) -/
def generateJs (difficulty : String) : List (Option Puzzle) → Puzzle
  | [] => generateFallbackPuzzleJs difficulty
  | some p :: _ => p
  | none :: rest => generateJs difficulty rest

/-- `PuzzleGenerator.quickSolvabilityCheck` (src/js): every full row and
column sum must be able to reach its target. -/
def quickSolvabilityCheck (g : Grid) (t : Targets) : Bool :=
  (List.range 7).all (fun i =>
    !(fullRowSum g i < t.row.getD i 0) && !(fullColSum g i < t.col.getD i 0))

/-- One step of `createIntelligentSolutionMask`'s deletion loop: skip once
the target deletion count is reached; otherwise try the deletion, restoring
it when a row or column would drop below 2 kept cells or when
`quickSolvabilityCheck` fails on the updated targets. -/
def maskDelStepJs (g : Grid) (targetDeletions : Nat) (acc : Mask × Nat)
    (pos : Nat × Nat) : Mask × Nat :=
  if targetDeletions ≤ acc.2 then acc
  else
    let m' := setCell acc.1 pos.1 pos.2 false
    if rowCount m' pos.1 < 2 ∨ colCount m' pos.2 < 2 then acc
    else if quickSolvabilityCheck g (calculateTargets g m') = false then acc
    else (m', acc.2 + 1)

/-- `PuzzleGenerator.createIntelligentSolutionMask` (src/js): walk cells in
deletion-priority order (`priority` is the sorted output of
`getDeletionPriority`), deleting under the ≥ 2 kept floor and the
solvability check; fail unless exactly `targetDeletions` deletions land. -/
def createIntelligentSolutionMask (g : Grid) (targetDeletions : Nat)
    (priority : List (Nat × Nat)) : Option Mask :=
  let acc := priority.foldl (maskDelStepJs g targetDeletions) (allTrueMask, 0)
  if acc.2 = targetDeletions then some acc.1 else none

/-!
## The logical solver (src/js `LogicalSolver`, mirrored by part_003's
`SimpleSolver`)
-/

/-- The solver's two parallel matrices; a cell is undecided when both are
false. -/
structure SolverState where
  deleted : Nat → Nat → Bool
  confirmed : Nat → Nat → Bool

/-- `LogicalSolver.getRowSum`: current kept-sum of a row, i.e. the sum of
the row's values over cells not marked deleted (as in part_003's
`SimpleSolver.getRowSum`; the player-state layer uses the same
summation). -/
def solverRowSum (g : Grid) (s : SolverState) (r : Nat) : Int :=
  (List.range 7).foldl (fun sum c => if s.deleted r c then sum else sum + g r c) 0

/-- `LogicalSolver.getColSum`: current kept-sum of a column. -/
def solverColSum (g : Grid) (s : SolverState) (c : Nat) : Int :=
  (List.range 7).foldl (fun sum r => if s.deleted r c then sum else sum + g r c) 0

/-- The row half of `LogicalSolver.applyForcedMoves` for a single row `r`:
with `excess = currentSum - target`, when `excess > 0` every undecided cell
whose value equals `excess` is deleted and every undecided cell whose value
exceeds `excess` is confirmed when keeping it is required
(`currentSum - value < target`); when `excess = 0` every undecided cell is
confirmed.  Cells of other rows are untouched, and the row's `currentSum`
is the one computed before the row's own updates, exactly as in the
source. -/
def rowForcedUpdate (g : Grid) (rowTargets : List Int) (s : SolverState) (r : Nat) :
    SolverState :=
  let currentSum := solverRowSum g s r
  let target := rowTargets.getD r 0
  let excess := currentSum - target
  if 0 < excess then
    { deleted := fun r' c =>
        if r' = r ∧ c < 7 ∧ s.deleted r' c = false ∧ s.confirmed r' c = false ∧
            g r' c = excess then true
        else s.deleted r' c
      confirmed := fun r' c =>
        if r' = r ∧ c < 7 ∧ s.deleted r' c = false ∧ s.confirmed r' c = false ∧
            excess < g r' c ∧ currentSum - g r' c < target then true
        else s.confirmed r' c }
  else if excess = 0 then
    { deleted := s.deleted
      confirmed := fun r' c =>
        if r' = r ∧ c < 7 ∧ s.deleted r' c = false ∧ s.confirmed r' c = false then true
        else s.confirmed r' c }
  else s

/-- The column half of `applyForcedMoves` for a single column. -/
def colForcedUpdate (g : Grid) (colTargets : List Int) (s : SolverState) (c : Nat) :
    SolverState :=
  let currentSum := solverColSum g s c
  let target := colTargets.getD c 0
  let excess := currentSum - target
  if 0 < excess then
    { deleted := fun r c' =>
        if c' = c ∧ r < 7 ∧ s.deleted r c' = false ∧ s.confirmed r c' = false ∧
            g r c' = excess then true
        else s.deleted r c'
      confirmed := fun r c' =>
        if c' = c ∧ r < 7 ∧ s.deleted r c' = false ∧ s.confirmed r c' = false ∧
            excess < g r c' ∧ currentSum - g r c' < target then true
        else s.confirmed r c' }
  else if excess = 0 then
    { deleted := s.deleted
      confirmed := fun r c' =>
        if c' = c ∧ r < 7 ∧ s.deleted r c' = false ∧ s.confirmed r c' = false then true
        else s.confirmed r c' }
  else s

/-- The row loop of `applyForcedMoves`: rows 0..6 processed in order. -/
def applyForcedMovesRows (g : Grid) (rowTargets : List Int) (s : SolverState) :
    SolverState :=
  (List.range 7).foldl (rowForcedUpdate g rowTargets) s

/-- The column loop of `applyForcedMoves`: columns 0..6 processed in order,
after the row loop has run. -/
def applyForcedMovesCols (g : Grid) (colTargets : List Int) (s : SolverState) :
    SolverState :=
  (List.range 7).foldl (colForcedUpdate g colTargets) s

/-- `LogicalSolver.applyForcedMoves` (src/js): the row pass followed by the
column pass (the source's `changed` flag reports whether any cell moved and
carries no state). -/
def applyForcedMoves (g : Grid) (rowTargets colTargets : List Int)
    (s : SolverState) : SolverState :=
  applyForcedMovesCols g colTargets (applyForcedMovesRows g rowTargets s)

/-!
## The uniqueness checker (src/js `hasUniqueSolution` / `findAllSolutions`)
-/

/-- `PuzzleGenerator.isValidSolution` (src/js): every masked row and column
sum equals its target. -/
def isValidSolution (g : Grid) (m : Mask) (t : Targets) : Bool :=
  ((List.range 7).all (fun i => maskedRowSum g m i = t.row.getD i 0)) &&
  ((List.range 7).all (fun j => maskedColSum g m j = t.col.getD j 0))

/-- `PuzzleGenerator.canDeleteCell` (src/js): deleting the cell must leave
at least 2 kept cells in its row and its column (the source deletes
temporarily, counts, and restores; the embedding counts on the updated
mask directly). -/
def canDeleteCell (m : Mask) (row col : Nat) : Bool :=
  2 ≤ rowCount (setCell m row col false) row &&
  2 ≤ colCount (setCell m row col false) col

/-- Whether cell `(i, j)` is already decided when the search has processed
cells up to `(row, col)` in row-major order. -/
def decidedBefore (row col i j : Nat) : Bool :=
  i < row || (i = row && j ≤ col)

/-- `PuzzleGenerator.canReachTargets` (src/js): for each row up to the
current one, the decided kept-sum must equal the target once the row is
complete, and otherwise the potential sum (decided kept cells plus all
undecided cells) must still reach the target; each column's potential sum
must also reach its target.  (The source also accumulates a `colSum` of
decided kept cells that no condition ever reads; the dead accumulator is
omitted.) -/
def canReachTargets (g : Grid) (m : Mask) (t : Targets) (row col : Nat) : Bool :=
  ((List.range (row + 1)).all (fun i =>
    let rowSum := (List.range 7).foldl
      (fun s j => if decidedBefore row col i j then
          (if m i j then s + g i j else s) else s) 0
    let rowPotential := (List.range 7).foldl
      (fun s j => if decidedBefore row col i j then
          (if m i j then s + g i j else s) else s + g i j) 0
    if i < row || (i = row && col = 6) then rowSum = t.row.getD i 0
    else !(rowPotential < t.row.getD i 0))) &&
  ((List.range 7).all (fun j =>
    let colPotential := (List.range 7).foldl
      (fun s i => if decidedBefore row col i j then
          (if m i j then s + g i j else s) else s + g i j) 0
    !(colPotential < t.col.getD j 0)))

/-- `PuzzleGenerator.findAllSolutions` (src/js): depth-first backtracking
over cells in row-major order, keep branch before delete branch, returning
the accumulated solution list.  It returns immediately once
`maxSolutions` solutions are recorded.  The source mutates one shared mask
and restores it after each branch; the embedding passes each branch its own
mask, which is the same function of the decided prefix. -/
def findAllSolutions (g : Grid) (t : Targets) (mask : Mask) (row col : Nat)
    (solutions : List Mask) (maxSolutions : Nat) : List Mask :=
  if maxSolutions ≤ solutions.length then solutions
  else
    let row' := if 7 ≤ col then row + 1 else row
    let col' := if 7 ≤ col then 0 else col
    if h7 : 7 ≤ row' then
      if isValidSolution g mask t then solutions ++ [mask] else solutions
    else
      let maskK := setCell mask row' col' true
      let sols1 :=
        if canReachTargets g maskK t row' col' then
          findAllSolutions g t maskK row' (col' + 1) solutions maxSolutions
        else solutions
      if canDeleteCell mask row' col' then
        let maskD := setCell mask row' col' false
        if canReachTargets g maskD t row' col' then
          findAllSolutions g t maskD row' (col' + 1) sols1 maxSolutions
        else sols1
      else sols1
termination_by 56 - (7 * row + min col 7)
decreasing_by
  · simp only [row', col'] at h7 ⊢
    by_cases hc : 7 ≤ col <;> simp [hc] at h7 ⊢ <;> omega
  · simp only [row', col'] at h7 ⊢
    by_cases hc : 7 ≤ col <;> simp [hc] at h7 ⊢ <;> omega

/-- `PuzzleGenerator.hasUniqueSolution` (src/js): run the capped search
from the all-true mask and report whether exactly one solution was
found. -/
def hasUniqueSolution (g : Grid) (t : Targets) : Bool :=
  (findAllSolutions g t allTrueMask 0 0 [] 2).length == 1

/-!
## The player-state layer (`src/unnamed/part_000`, `GameState`)
-/

/-- The game state: the current puzzle's data plus the player's two
per-cell matrices.  (`showGuides` and the timer are UI plumbing with no
game logic and are omitted.) -/
structure GameState where
  grid : Grid
  deleted : Nat → Nat → Bool
  confirmed : Nat → Nat → Bool
  rowTargets : List Int
  colTargets : List Int
  gameCompleted : Bool
  currentPuzzle : Option Puzzle
  solutionMask : Option Mask
  difficulty : String

/-- The constructor's state: empty matrices (no cell deleted or
confirmed), no puzzle, difficulty `easy`. -/
def initialGameState : GameState :=
  { grid := fun _ _ => 0
    deleted := allFalseMask
    confirmed := allFalseMask
    rowTargets := []
    colTargets := []
    gameCompleted := false
    currentPuzzle := none
    solutionMask := none
    difficulty := "easy" }

/-- `GameState.initializeWithPuzzle`: copy the puzzle's data in and zero
both player matrices (`puzzle.difficulty || this.difficulty` keeps the old
difficulty when the puzzle's is the empty string). -/
def GameState.initializeWithPuzzle (s : GameState) (p : Puzzle) : GameState :=
  { grid := p.grid
    deleted := allFalseMask
    confirmed := allFalseMask
    rowTargets := p.rowTargets
    colTargets := p.colTargets
    gameCompleted := false
    currentPuzzle := some p
    solutionMask := some p.solutionMask
    difficulty := if p.difficulty = "" then s.difficulty else p.difficulty }

/-- `GameState.reset`: zero both player matrices, but only when a current
puzzle exists. -/
def GameState.reset (s : GameState) : GameState :=
  match s.currentPuzzle with
  | some _ => { s with deleted := allFalseMask, confirmed := allFalseMask
                       gameCompleted := false }
  | none => s

/-- `GameState.toggleCell`: cycle the cell through
normal → deleted → confirmed → normal. -/
def GameState.toggleCell (s : GameState) (row col : Nat) : GameState :=
  if s.confirmed row col = false ∧ s.deleted row col = false then
    { s with deleted := setCell s.deleted row col true }
  else if s.deleted row col = true then
    { s with deleted := setCell s.deleted row col false
             confirmed := setCell s.confirmed row col true }
  else
    { s with confirmed := setCell s.confirmed row col false }

/-- `GameState.getCurrentRowSum`: sum of the row's values over cells the
player has not deleted. -/
def GameState.getCurrentRowSum (s : GameState) (row : Nat) : Int :=
  (List.range 7).foldl
    (fun sum col => if s.deleted row col then sum else sum + s.grid row col) 0

/-- `GameState.getCurrentColSum`. -/
def GameState.getCurrentColSum (s : GameState) (col : Nat) : Int :=
  (List.range 7).foldl
    (fun sum row => if s.deleted row col then sum else sum + s.grid row col) 0

/-- `GameState.checkWin`: every current row and column sum equals its
target. -/
def GameState.checkWin (s : GameState) : Bool :=
  (List.range 7).all (fun i =>
    (s.getCurrentRowSum i = s.rowTargets.getD i 0 : Bool) &&
    (s.getCurrentColSum i = s.colTargets.getD i 0 : Bool))

/-- `GameState.getCellState`: the player-visible tri-state of a cell. -/
def GameState.getCellState (s : GameState) (row col : Nat) : String :=
  if s.deleted row col then "deleted"
  else if s.confirmed row col then "confirmed"
  else "normal"

/-!
## Claim C1: `calculateTargets` computes the masked row and column sums
-/

/-- A fixed grid used to instantiate universally quantified theorems. -/
def wGrid : Grid := fun i j => (i : Int) + (j : Int) + 1

/-- A fixed mask used to instantiate universally quantified theorems. -/
def wMask : Mask := fun i j => decide ((i + j) % 2 = 0)

/-- All-zero random draws for part_001's samplers. -/
def zeroDrawsP1 : DrawsP1 :=
  { mask := { rowRand := fun _ => 0, rowShuffle := fun _ _ => 0
              colAddShuffle := fun _ _ => 0, colRemoveShuffle := fun _ _ => 0 }
    grid := { cell := fun _ _ _ => 0, fix := fun _ _ _ => 0 } }

/-- C1: for every grid and solution mask, `calculateTargets` returns row
targets equal to the masked row sums and column targets equal to the
masked column sums (the spec's filtered-sum formula), for every index; and
every puzzle returned by a successful part_001 generation attempt carries
exactly the targets `calculateTargets` computes from its own grid and
solution mask. -/
theorem c1_calculate_targets_correct :
    (∀ (g : Grid) (m : Mask) (i : Nat), i < 7 →
      (calculateTargets g m).row.getD i 0 = specRowTarget g m i ∧
      (calculateTargets g m).col.getD i 0 = specColTarget g m i) ∧
    (∀ (d : String) (dr : DrawsP1),
      match attemptGenerationP1 d dr with
      | some p => p.rowTargets = (calculateTargets p.grid p.solutionMask).row ∧
                  p.colTargets = (calculateTargets p.grid p.solutionMask).col
      | none => True) := by
  constructor
  · intro g m i hi
    constructor
    · simp only [calculateTargets]
      rw [getD_map_range _ i hi]
      exact foldl_if_eq_sum_filter (fun j => m i j) (fun j => g i j) 7
    · simp only [calculateTargets]
      rw [getD_map_range _ i hi]
      exact foldl_if_eq_sum_filter (fun i' => m i' i) (fun i' => g i' i) 7
  · intro d dr
    simp only [attemptGenerationP1]
    split_ifs with hv
    · exact ⟨rfl, rfl⟩
    · trivial

/-- Witness for C1: the theorem instantiated at a concrete grid, mask and
index (discharging the index bound). -/
theorem c1_calculate_targets_correct_witness :
    (3 < 7) ∧
    ((calculateTargets wGrid wMask).row.getD 3 0 = specRowTarget wGrid wMask 3) :=
  ⟨by norm_num, (c1_calculate_targets_correct.1 wGrid wMask 3 (by norm_num)).1⟩

/-!
## Claim C9: the player tri-state invariant and the toggle cycle
-/

/-- No cell is simultaneously marked deleted and confirmed. -/
def NoConflict (s : GameState) : Prop :=
  ∀ r c, ¬(s.deleted r c = true ∧ s.confirmed r c = true)

/-- C9: the no-conflict invariant (no cell both deleted and confirmed)
holds in the constructor's state, after `initializeWithPuzzle`, and is
preserved by `reset` and `toggleCell`; and `toggleCell` cycles a cell
deterministically through normal → deleted → confirmed → normal. -/
theorem c9_tristate_invariant :
    NoConflict initialGameState ∧
    (∀ (s : GameState) (p : Puzzle), NoConflict (s.initializeWithPuzzle p)) ∧
    (∀ s : GameState, NoConflict s → NoConflict s.reset) ∧
    (∀ (s : GameState) (r c : Nat), NoConflict s → NoConflict (s.toggleCell r c)) ∧
    (∀ (s : GameState) (r c : Nat), s.getCellState r c = "normal" →
      (s.toggleCell r c).getCellState r c = "deleted") ∧
    (∀ (s : GameState) (r c : Nat), s.getCellState r c = "deleted" →
      (s.toggleCell r c).getCellState r c = "confirmed") ∧
    (∀ (s : GameState) (r c : Nat), s.getCellState r c = "confirmed" →
      (s.toggleCell r c).getCellState r c = "normal") := by
  refine ⟨?_, ?_, ?_, ?_, ?_, ?_, ?_⟩
  · intro r c h
    simp [initialGameState, allFalseMask] at h
  · intro s p r c h
    simp [GameState.initializeWithPuzzle, allFalseMask] at h
  · intro s h r c hcontra
    unfold GameState.reset at hcontra
    rcases hs : s.currentPuzzle with _ | p <;> rw [hs] at hcontra
    · exact h r c hcontra
    · simp [allFalseMask] at hcontra
  · intro s r c h r' c' hcontra
    unfold GameState.toggleCell at hcontra
    split_ifs at hcontra with h1 h2
    · rcases hcontra with ⟨hd, hc⟩
      simp only [setCell] at hd
      split_ifs at hd with hrc
      · exact absurd hc (by rw [hrc.1, hrc.2]; simp [h1.1])
      · exact h r' c' ⟨hd, hc⟩
    · rcases hcontra with ⟨hd, hc⟩
      simp only [setCell] at hd hc
      split_ifs at hd hc with hrc
      exact h r' c' ⟨hd, hc⟩
    · rcases hcontra with ⟨hd, hc⟩
      simp only [setCell] at hc
      split_ifs at hc with hrc
      exact h r' c' ⟨hd, hc⟩
  · intro s r c h
    unfold GameState.getCellState at h
    split_ifs at h with hd hc
    · exact absurd h (by decide)
    · exact absurd h (by decide)
    · simp [GameState.toggleCell, GameState.getCellState, setCell, hd, hc]
  · intro s r c h
    unfold GameState.getCellState at h
    split_ifs at h with hd hc
    · simp [GameState.toggleCell, GameState.getCellState, setCell, hd]
    · exact absurd h (by decide)
    · exact absurd h (by decide)
  · intro s r c h
    unfold GameState.getCellState at h
    split_ifs at h with hd hc
    · exact absurd h (by decide)
    · simp [GameState.toggleCell, GameState.getCellState, setCell, hd, hc]
    · exact absurd h (by decide)

/-- A concrete state whose cell (2, 3) is in the deleted state. -/
def wGameState : GameState :=
  { initialGameState with deleted := setCell allFalseMask 2 3 true }

/-- Witness for C9: the invariant-preservation and cycle statements
instantiated at concrete states and cells. -/
theorem c9_tristate_invariant_witness :
    NoConflict (wGameState.toggleCell 2 3) ∧
    (wGameState.toggleCell 2 3).getCellState 2 3 = "confirmed" ∧
    (initialGameState.toggleCell 0 0).getCellState 0 0 = "deleted" :=
  ⟨c9_tristate_invariant.2.2.2.1 wGameState 2 3
     (by intro r c h; simp [wGameState, initialGameState, allFalseMask] at h),
   c9_tristate_invariant.2.2.2.2.2.1 wGameState 2 3 (by decide),
   c9_tristate_invariant.2.2.2.2.1 initialGameState 0 0 (by decide)⟩

/-!
## Claim C10: win checking and current sums ignore the confirmed matrix
-/

/-- C10: two game states agreeing on grid, targets and the deleted matrix
(but with arbitrary confirmed matrices) have identical current row sums,
current column sums, and `checkWin` results. -/
theorem c10_checkwin_ignores_confirmed :
    ∀ s1 s2 : GameState, s1.grid = s2.grid → s1.deleted = s2.deleted →
      s1.rowTargets = s2.rowTargets → s1.colTargets = s2.colTargets →
      (∀ r, s1.getCurrentRowSum r = s2.getCurrentRowSum r) ∧
      (∀ c, s1.getCurrentColSum c = s2.getCurrentColSum c) ∧
      s1.checkWin = s2.checkWin := by
  intro s1 s2 hg hd hrt hct
  refine ⟨fun r => ?_, fun c => ?_, ?_⟩
  · simp only [GameState.getCurrentRowSum, hg, hd]
  · simp only [GameState.getCurrentColSum, hg, hd]
  · simp only [GameState.checkWin, GameState.getCurrentRowSum,
      GameState.getCurrentColSum, hg, hd, hrt, hct]

/-- A state that differs from `initialGameState` only in its confirmed
matrix. -/
def wConfirmedState : GameState :=
  { initialGameState with confirmed := allTrueMask }

/-!
## Claim C7: `generate` is total and falls back on exhaustion
-/

lemma generateP1_eq_findSome (d : String) :
    ∀ attempts : List (Option Puzzle),
      generateP1 d attempts = (attempts.findSome? id).getD (generateFallbackPuzzleP1 d)
  | [] => rfl
  | some p :: rest => by simp [generateP1, List.findSome?]
  | none :: rest => by
      simpa [generateP1, List.findSome?] using generateP1_eq_findSome d rest

lemma generateJs_eq_findSome (d : String) :
    ∀ attempts : List (Option Puzzle),
      generateJs d attempts = (attempts.findSome? id).getD (generateFallbackPuzzleJs d)
  | [] => rfl
  | some p :: rest => by simp [generateJs, List.findSome?]
  | none :: rest => by
      simpa [generateJs, List.findSome?] using generateJs_eq_findSome d rest

lemma findSome_id_all_none :
    ∀ attempts : List (Option Puzzle), (∀ a ∈ attempts, a = none) →
      attempts.findSome? id = none
  | [], _ => rfl
  | a :: rest, h => by
      have ha := h a (by simp)
      subst ha
      simpa [List.findSome?] using
        findSome_id_all_none rest (fun a ha => h a (by simp [ha]))

/-- C7: both `generate` variants are total functions of the attempt
outcomes: the result is the first successful attempt when one exists, and
otherwise exactly the static fallback puzzle; in particular when every
attempt in the bounded loop fails, the fallback is returned rather than an
error. -/
theorem c7_generate_always_returns :
    ∀ (d : String) (attempts : List (Option Puzzle)),
      generateP1 d attempts = (attempts.findSome? id).getD (generateFallbackPuzzleP1 d) ∧
      generateJs d attempts = (attempts.findSome? id).getD (generateFallbackPuzzleJs d) ∧
      ((∀ a ∈ attempts, a = none) →
        generateP1 d attempts = generateFallbackPuzzleP1 d ∧
        generateJs d attempts = generateFallbackPuzzleJs d) := by
  intro d attempts
  refine ⟨generateP1_eq_findSome d attempts, generateJs_eq_findSome d attempts, ?_⟩
  intro hnone
  rw [generateP1_eq_findSome d attempts, generateJs_eq_findSome d attempts,
    findSome_id_all_none attempts hnone]
  exact ⟨rfl, rfl⟩

/-- Witness for C7: exhaustion at a concrete difficulty and attempt list
yields the fallback puzzles. -/
theorem c7_generate_always_returns_witness :
    generateP1 "hard" [none, none] = generateFallbackPuzzleP1 "hard" ∧
    generateJs "hard" [none, none] = generateFallbackPuzzleJs "hard" :=
  (c7_generate_always_returns "hard" [none, none]).2.2
    (by intro a ha; simp at ha; exact ha)

/-!
## Claim C2: the static fallback puzzles violate the target invariant
-/

lemma generateJs_replicate_none (d : String) :
    ∀ n, generateJs d (List.replicate n none) = generateFallbackPuzzleJs d
  | 0 => rfl
  | n + 1 => by
      simpa [List.replicate, generateJs] using generateJs_replicate_none d n

/-- C2, failing part: forcing exhaustion does return the exact static
fallback puzzle for `easy`, but that puzzle does not satisfy the
generated-puzzle invariant: its stored `rowTargets[0]` is 15 while the
masked sum of its own row 0 under its own solution mask is 18 (which is
also what the spec's worked example computes for this very row).  This
theorem evaluates the code at the failing input. -/
theorem c2_easy_fallback_breaks_invariant :
    generateJs "easy" (List.replicate 100 none) = easyFallback ∧
    easyFallback.rowTargets.getD 0 0 = 15 ∧
    (calculateTargets easyFallback.grid easyFallback.solutionMask).row.getD 0 0 = 18 ∧
    specRowTarget easyFallback.grid easyFallback.solutionMask 0 = 18 := by
  refine ⟨?_, by decide, by decide, by decide⟩
  simpa [generateFallbackPuzzleJs] using generateJs_replicate_none "easy" 100

/-!
## Claim C8: unrecognized difficulties use the medium profile
-/

/-- Difficulty profile of the src/js generator; fields that a given
difficulty's entry omits (JavaScript `undefined`, read as falsy by
`meetsStrategyRequirements`) are `none`. -/
structure SettingsJs where
  minValue : Int
  maxValue : Int
  minDeletions : Nat
  maxDeletions : Nat
  minSteps : Nat
  maxSteps : Nat
  minForcedMovePercent : Option Nat
  maxForcedMovePercent : Option Nat
  minIntersectionPercent : Option Nat
  maxIntersectionPercent : Option Nat
  minAdvancedPercent : Option Nat
  maxAdvancedPercent : Option Nat
  patternTemplates : List String
deriving DecidableEq

/-- The `difficultySettings` table of the src/js constructor. -/
def difficultySettingsJs (difficulty : String) : Option SettingsJs :=
  if difficulty = "easy" then
    some { minValue := 1, maxValue := 5, minDeletions := 8, maxDeletions := 12
           minSteps := 5, maxSteps := 15
           minForcedMovePercent := some 70, maxForcedMovePercent := none
           minIntersectionPercent := none, maxIntersectionPercent := some 30
           minAdvancedPercent := none, maxAdvancedPercent := some 0
           patternTemplates := ["rowComplete", "columnComplete", "obviousExcess"] }
  else if difficulty = "medium" then
    some { minValue := 1, maxValue := 8, minDeletions := 15, maxDeletions := 20
           minSteps := 15, maxSteps := 30
           minForcedMovePercent := some 30, maxForcedMovePercent := some 50
           minIntersectionPercent := some 30, maxIntersectionPercent := some 50
           minAdvancedPercent := none, maxAdvancedPercent := some 20
           patternTemplates := ["intersectionRequired", "cascading", "balancedConstraints"] }
  else if difficulty = "hard" then
    some { minValue := 2, maxValue := 12, minDeletions := 22, maxDeletions := 28
           minSteps := 30, maxSteps := 50
           minForcedMovePercent := none, maxForcedMovePercent := some 30
           minIntersectionPercent := some 30, maxIntersectionPercent := some 40
           minAdvancedPercent := some 30, maxAdvancedPercent := none
           patternTemplates := ["complex", "multiConstraint", "deepLogic"] }
  else none

/-- `difficultySettings[difficulty] || difficultySettings.medium` (src/js). -/
def settingsForJs (difficulty : String) : SettingsJs :=
  (difficultySettingsJs difficulty).getD
    { minValue := 1, maxValue := 8, minDeletions := 15, maxDeletions := 20
      minSteps := 15, maxSteps := 30
      minForcedMovePercent := some 30, maxForcedMovePercent := some 50
      minIntersectionPercent := some 30, maxIntersectionPercent := some 50
      minAdvancedPercent := none, maxAdvancedPercent := some 20
      patternTemplates := ["intersectionRequired", "cascading", "balancedConstraints"] }

/-- C8, counterexample to the claim as stated: with identical random draws
(here: zero successful attempts on each side), generation with the
unrecognized difficulty "mystery" does NOT behave identically to
generation with "medium" — the returned puzzle records the requested
difficulty string. -/
theorem c8_not_fully_identical :
    ¬(generateP1 "mystery" [] = generateP1 "medium" []) :=
  fun h => absurd (congrArg Puzzle.difficulty h) (by decide)

/-- C8, amended: an unrecognized difficulty name selects exactly medium's
profile in all three generator variants, so generation behaves identically
to `medium` on the same random draws except that the returned puzzle's
`difficulty` field records the requested string. -/
theorem c8_unrecognized_uses_medium :
    ∀ d : String, d ≠ "easy" → d ≠ "medium" → d ≠ "hard" →
      settingsForP1 d = settingsForP1 "medium" ∧
      settingsForP3 d = settingsForP3 "medium" ∧
      settingsForJs d = settingsForJs "medium" ∧
      (∀ dr : DrawsP1, attemptGenerationP1 d dr =
        (attemptGenerationP1 "medium" dr).map (fun p => { p with difficulty := d })) ∧
      generateFallbackPuzzleP1 d =
        { generateFallbackPuzzleP1 "medium" with difficulty := d } := by
  intro d h1 h2 h3
  have hs : settingsForP1 d = settingsForP1 "medium" := by
    simp [settingsForP1, difficultySettingsP1, h1, h2, h3]
  refine ⟨hs, ?_, ?_, ?_, rfl⟩
  · simp [settingsForP3, difficultySettingsP3, h1, h2, h3]
  · simp [settingsForJs, difficultySettingsJs, h1, h2, h3]
  · intro dr
    simp only [attemptGenerationP1, hs]
    generalize settingsForP1 "medium" = S
    generalize createValidSolutionMask S dr.mask = M
    generalize createGrid S dr.grid = G
    generalize calculateTargets G M = T
    split_ifs with hv
    · rfl
    · rfl

/-!
## Claim C3: rejection of trivially pre-solved rows and columns
-/

/-- The first eight entries of a shuffled deletion order for part_003's
mask sampler: eight cells, none of them in row 0, that leave every row and
column with at least 2 kept cells. -/
def delCellsP3 : List (Nat × Nat) :=
  [(1, 0), (1, 1), (2, 2), (2, 3), (3, 4), (3, 5), (4, 6), (5, 0)]

/-- All 49 cell positions in row-major order. -/
def allCellsP3 : List (Nat × Nat) :=
  (List.range 7).flatMap (fun i => (List.range 7).map (fun j => (i, j)))

/-- A permutation of all 49 positions that starts with `delCellsP3`,
standing for one possible output of part_003's position shuffle. -/
def cPositionsP3 : List (Nat × Nat) :=
  delCellsP3 ++ allCellsP3.filter (fun q => !(delCellsP3.contains q))

/-- C3, counterexample to the claim as stated: a part_003 generation
attempt (easy profile, all-ones grid, deletion order `cPositionsP3`,
deletion count 8) succeeds and returns a puzzle whose row 0 has no
deletions, so `rowTargets[0]` equals the full sum of row 0 (both are 7):
`isValidConfiguration` does not reject full-sum-equals-target triples. -/
theorem c3_trivial_row_accepted_p3 :
    ((attemptGenerationP3 "easy" (fun _ _ => 0) cPositionsP3 0).map
      (fun p => (p.rowTargets.getD 0 0, fullRowSum p.grid 0))) = some (7, 7) := by
  set_option maxRecDepth 8000 in decide

/-- C3, amended: every triple accepted by part_001's `validatePuzzle` has
every full row and column sum different from its target (equivalently, a
triple with a full sum equal to its target is rejected by that validator);
part_003's `isValidConfiguration` enforces no such property. -/
theorem c3_validate_rejects_trivial :
    ∀ (st : SettingsP1) (g : Grid) (m : Mask) (t : Targets),
      validatePuzzle st g m t = true →
      ∀ i, i < 7 →
        fullRowSum g i ≠ t.row.getD i 0 ∧ fullColSum g i ≠ t.col.getD i 0 := by
  intro st g m t h i hi
  unfold validatePuzzle at h
  rw [Bool.and_eq_true, List.all_eq_true, List.all_eq_true] at h
  obtain ⟨hrow, hcol⟩ := h
  have h1 := hrow i (List.mem_range.mpr hi)
  have h2 := hcol i (List.mem_range.mpr hi)
  simp only [Bool.and_eq_true, Bool.not_eq_true', decide_eq_false_iff_not] at h1 h2
  exact ⟨h1.1.1, h2.1.1⟩

/-- A mask deleting exactly the diagonal: one deletion per row and per
column. -/
def wDiagMask : Mask := fun i j => decide (i ≠ j)

/-- An all-ones grid. -/
def wOnesGrid : Grid := fun _ _ => 1

/-- Witness for C3's amended theorem: a concrete accepted triple (easy
part_001 profile, all-ones grid, diagonal mask, its own targets), at
index 2. -/
theorem c3_validate_rejects_trivial_witness :
    (2 < 7) ∧
    fullRowSum wOnesGrid 2 ≠
      (calculateTargets wOnesGrid wDiagMask).row.getD 2 0 ∧
    fullColSum wOnesGrid 2 ≠
      (calculateTargets wOnesGrid wDiagMask).col.getD 2 0 :=
  ⟨by norm_num,
   c3_validate_rejects_trivial (settingsForP1 "easy") wOnesGrid wDiagMask
     (calculateTargets wOnesGrid wDiagMask) (by decide) 2 (by norm_num)⟩

/-!
## Claim C4: the kept-cells floor of the mask samplers
-/

/-- The random draws exhibiting C4's counterexample: under the hard
part_001 profile, row 0 draws keep-count 1 and the other rows keep-count 6
(all shuffles use constant zero draws). -/
def hardMaskDrawsP1 : MaskDrawsP1 :=
  { rowRand := fun i => if i = 0 then 0 else 5
    rowShuffle := fun _ _ => 0
    colAddShuffle := fun _ _ => 0
    colRemoveShuffle := fun _ _ => 0 }

/-- C4, counterexample to the claim as stated: part_001's mask sampler
under the hard profile (whose per-row floor is `minKeepCells = 1`) returns
a mask whose row 0 keeps only a single cell — fewer than the claimed
hard floor of 2. -/
theorem c4_hard_mask_single_kept_cell :
    rowCount (createValidSolutionMask (settingsForP1 "hard") hardMaskDrawsP1) 0
      = 1 := by
  decide

lemma rowCount_setCell_other (m : Mask) (r c : Nat) (b : Bool) (r' : Nat)
    (h : r' ≠ r) : rowCount (setCell m r c b) r' = rowCount m r' := by
  unfold rowCount setCell
  congr 1
  apply List.filter_congr
  intro x _
  simp [h]

lemma colCount_setCell_other (m : Mask) (r c : Nat) (b : Bool) (c' : Nat)
    (h : c' ≠ c) : colCount (setCell m r c b) c' = colCount m c' := by
  unfold colCount setCell
  congr 1
  apply List.filter_congr
  intro x _
  simp [h]

/-- The ≥ 2 kept cells floor, for every row and column index. -/
def MaskFloor (m : Mask) : Prop :=
  ∀ k, 2 ≤ rowCount m k ∧ 2 ≤ colCount m k

lemma maskDelStepJs_preserves (g : Grid) (td : Nat) (acc : Mask × Nat)
    (pos : Nat × Nat) (h : MaskFloor acc.1) :
    MaskFloor (maskDelStepJs g td acc pos).1 := by
  simp only [maskDelStepJs]
  split_ifs with h1 h2 h3
  · exact h
  · exact h
  · exact h
  · dsimp only
    intro k
    push_neg at h2
    constructor
    · by_cases hk : k = pos.1
      · subst hk; exact h2.1
      · rw [rowCount_setCell_other _ _ _ _ _ hk]
        exact (h k).1
    · by_cases hk : k = pos.2
      · subst hk; exact h2.2
      · rw [colCount_setCell_other _ _ _ _ _ hk]
        exact (h k).2

lemma foldl_preserves {α β : Type} (P : α → Prop) (f : α → β → α)
    (hf : ∀ a b, P a → P (f a b)) :
    ∀ (l : List β) (a : α), P a → P (l.foldl f a)
  | [], _, h => h
  | b :: l, a, h => foldl_preserves P f hf l (f a b) (hf a b h)

/-- C4, amended: every mask returned (non-`none`) by src/js's
`createIntelligentSolutionMask` keeps at least 2 cells in every row and
every column (part_003's `createSolutionMask` enforces the same guard;
part_001's `createValidSolutionMask` instead enforces only the
difficulty's own `minKeepCells` floor, which is 1 for hard). -/
theorem c4_mask_keeps_at_least_two :
    ∀ (g : Grid) (targetDeletions : Nat) (priority : List (Nat × Nat)) (m : Mask),
      createIntelligentSolutionMask g targetDeletions priority = some m →
      ∀ k, 2 ≤ rowCount m k ∧ 2 ≤ colCount m k := by
  intro g td priority m hm
  simp only [createIntelligentSolutionMask] at hm
  split_ifs at hm with hcount
  have hinit : MaskFloor ((allTrueMask, (0 : Nat))).1 := by
    intro k
    constructor <;> simp [rowCount, colCount, allTrueMask]
  have hfloor :=
    foldl_preserves (fun acc : Mask × Nat => MaskFloor acc.1)
      (maskDelStepJs g td)
      (fun a b ha => maskDelStepJs_preserves g td a b ha)
      priority (allTrueMask, 0) hinit
  rw [Option.some_inj] at hm
  rw [← hm]
  exact hfloor

/-- The mask produced by deleting cell (0,0) from the all-true mask. -/
def wDelMask : Mask := setCell allTrueMask 0 0 false

/-- Witness for C4's amended theorem: a concrete successful run of
`createIntelligentSolutionMask` (all-ones grid, one deletion at (0,0)). -/
theorem c4_mask_keeps_at_least_two_witness :
    (createIntelligentSolutionMask wOnesGrid 1 [(0, 0)] = some wDelMask) ∧
    2 ≤ rowCount wDelMask 0 ∧ 2 ≤ colCount wDelMask 0 :=
  ⟨rfl, (c4_mask_keeps_at_least_two wOnesGrid 1 [(0, 0)] wDelMask rfl 0).1,
   (c4_mask_keeps_at_least_two wOnesGrid 1 [(0, 0)] wDelMask rfl 0).2⟩

/-!
## Claim C6: the uniqueness search caps solutions at 2
-/

lemma findAll_len_le (g : Grid) (t : Targets) (maxS : Nat) :
    ∀ (fuel : Nat) (row col : Nat), 56 - (7 * row + min col 7) ≤ fuel →
      ∀ (mask : Mask) (sols : List Mask), sols.length ≤ maxS →
        (findAllSolutions g t mask row col sols maxS).length ≤ maxS := by
  intro fuel
  induction fuel with
  | zero =>
    intro row col hm mask sols hs
    rw [findAllSolutions]
    by_cases h0 : maxS ≤ sols.length
    · rw [if_pos h0]; exact hs
    · rw [if_neg h0]
      have hrow : 7 ≤ (if 7 ≤ col then row + 1 else row) := by
        by_cases hcol : 7 ≤ col <;> simp only [hcol, if_true, if_false] <;> omega
      rw [dif_pos hrow]
      split_ifs
      · have : (sols ++ [mask]).length = sols.length + 1 := by simp
        omega
      · exact hs
  | succ n ih =>
    intro row col hm mask sols hs
    rw [findAllSolutions]
    by_cases h0 : maxS ≤ sols.length
    · rw [if_pos h0]; exact hs
    · rw [if_neg h0]
      by_cases hrow : 7 ≤ (if 7 ≤ col then row + 1 else row)
      · rw [dif_pos hrow]
        split_ifs
        · have : (sols ++ [mask]).length = sols.length + 1 := by simp
          omega
        · exact hs
      · rw [dif_neg hrow]
        by_cases hcol : 7 ≤ col
        · simp only [hcol, if_true] at hrow ⊢
          have hm' : 56 - (7 * (row + 1) + min (0 + 1) 7) ≤ n := by omega
          have hsols1 : (if canReachTargets g (setCell mask (row + 1) 0 true) t
              (row + 1) 0 then
              findAllSolutions g t (setCell mask (row + 1) 0 true) (row + 1)
                (0 + 1) sols maxS
            else sols).length ≤ maxS := by
            split_ifs
            · exact ih _ _ hm' _ sols hs
            · exact hs
          split_ifs at hsols1 ⊢ <;>
            first
              | exact ih _ _ hm' _ _ hsols1
              | exact hsols1
        · simp only [hcol, if_false] at hrow ⊢
          have hm' : 56 - (7 * row + min (col + 1) 7) ≤ n := by omega
          have hsols1 : (if canReachTargets g (setCell mask row col true) t
              row col then
              findAllSolutions g t (setCell mask row col true) row
                (col + 1) sols maxS
            else sols).length ≤ maxS := by
            split_ifs
            · exact ih _ _ hm' _ sols hs
            · exact hs
          split_ifs at hsols1 ⊢ <;>
            first
              | exact ih _ _ hm' _ _ hsols1
              | exact hsols1

/-- C6: the backtracking search from the all-true mask records at most 2
solutions (it returns as soon as the cap of `maxSolutions = 2` is
reached), and `hasUniqueSolution` returns `true` exactly when this capped
search — row-major order, keep branch before delete branch — finds
exactly one satisfying mask. -/
theorem c6_uniqueness_capped_at_two :
    ∀ (g : Grid) (t : Targets),
      (findAllSolutions g t allTrueMask 0 0 [] 2).length ≤ 2 ∧
      (hasUniqueSolution g t = true ↔
        (findAllSolutions g t allTrueMask 0 0 [] 2).length = 1) := by
  intro g t
  constructor
  · exact findAll_len_le g t 2 56 0 0 (by norm_num) allTrueMask [] (by simp)
  · simp [hasUniqueSolution]

/-!
## Claim C5: the forced-move rule
-/

lemma foldl_skip_congr (v : Nat → Int) :
    ∀ (l : List Nat) (p q : Nat → Bool) (init : Int), (∀ x ∈ l, p x = q x) →
      l.foldl (fun s c => if p c then s else s + v c) init =
      l.foldl (fun s c => if q c then s else s + v c) init
  | [], _, _, _, _ => rfl
  | a :: l, p, q, init, h => by
      simp only [List.foldl_cons, h a (List.mem_cons_self a l)]
      exact foldl_skip_congr v l p q _ (fun x hx => h x (List.mem_cons_of_mem a hx))

lemma solverRowSum_congr (g : Grid) (s1 s2 : SolverState) (r : Nat)
    (h : ∀ c, c < 7 → s1.deleted r c = s2.deleted r c) :
    solverRowSum g s1 r = solverRowSum g s2 r :=
  foldl_skip_congr (fun c => g r c) (List.range 7) (fun c => s1.deleted r c)
    (fun c => s2.deleted r c) 0 (fun x hx => h x (List.mem_range.mp hx))

lemma solverColSum_congr (g : Grid) (s1 s2 : SolverState) (c : Nat)
    (h : ∀ r, r < 7 → s1.deleted r c = s2.deleted r c) :
    solverColSum g s1 c = solverColSum g s2 c :=
  foldl_skip_congr (fun r => g r c) (List.range 7) (fun r => s1.deleted r c)
    (fun r => s2.deleted r c) 0 (fun x hx => h x (List.mem_range.mp hx))

lemma rowForcedUpdate_other (g : Grid) (rowT : List Int) (s : SolverState)
    (rp r c : Nat) (h : r ≠ rp) :
    (rowForcedUpdate g rowT s rp).deleted r c = s.deleted r c ∧
    (rowForcedUpdate g rowT s rp).confirmed r c = s.confirmed r c := by
  simp only [rowForcedUpdate]
  split_ifs <;> constructor <;> simp [h]

lemma colForcedUpdate_other (g : Grid) (colT : List Int) (s : SolverState)
    (cp r c : Nat) (h : c ≠ cp) :
    (colForcedUpdate g colT s cp).deleted r c = s.deleted r c ∧
    (colForcedUpdate g colT s cp).confirmed r c = s.confirmed r c := by
  simp only [colForcedUpdate]
  split_ifs <;> constructor <;> simp [h]

lemma foldlRows_other (g : Grid) (rowT : List Int) (r c : Nat) :
    ∀ (l : List Nat), r ∉ l → ∀ s : SolverState,
      (l.foldl (rowForcedUpdate g rowT) s).deleted r c = s.deleted r c ∧
      (l.foldl (rowForcedUpdate g rowT) s).confirmed r c = s.confirmed r c
  | [], _, _ => ⟨rfl, rfl⟩
  | a :: l, h, s => by
      have hne : r ≠ a := fun hr => h (hr ▸ List.mem_cons_self a l)
      have hrest : r ∉ l := fun hr => h (List.mem_cons_of_mem a hr)
      have ih := foldlRows_other g rowT r c l hrest (rowForcedUpdate g rowT s a)
      have hother := rowForcedUpdate_other g rowT s a r c hne
      simp only [List.foldl_cons]
      exact ⟨ih.1.trans hother.1, ih.2.trans hother.2⟩

lemma foldlCols_other (g : Grid) (colT : List Int) (r c : Nat) :
    ∀ (l : List Nat), c ∉ l → ∀ s : SolverState,
      (l.foldl (colForcedUpdate g colT) s).deleted r c = s.deleted r c ∧
      (l.foldl (colForcedUpdate g colT) s).confirmed r c = s.confirmed r c
  | [], _, _ => ⟨rfl, rfl⟩
  | a :: l, h, s => by
      have hne : c ≠ a := fun hr => h (hr ▸ List.mem_cons_self a l)
      have hrest : c ∉ l := fun hr => h (List.mem_cons_of_mem a hr)
      have ih := foldlCols_other g colT r c l hrest (colForcedUpdate g colT s a)
      have hother := colForcedUpdate_other g colT s a r c hne
      simp only [List.foldl_cons]
      exact ⟨ih.1.trans hother.1, ih.2.trans hother.2⟩

lemma rowForcedUpdate_row_congr (g : Grid) (rowT : List Int)
    (s1 s : SolverState) (r c : Nat)
    (hsum : solverRowSum g s1 r = solverRowSum g s r)
    (hd : s1.deleted r c = s.deleted r c)
    (hc : s1.confirmed r c = s.confirmed r c) :
    (rowForcedUpdate g rowT s1 r).deleted r c =
      (rowForcedUpdate g rowT s r).deleted r c ∧
    (rowForcedUpdate g rowT s1 r).confirmed r c =
      (rowForcedUpdate g rowT s r).confirmed r c := by
  simp only [rowForcedUpdate, hsum]
  split_ifs <;> constructor <;> simp only [hd, hc]

lemma colForcedUpdate_col_congr (g : Grid) (colT : List Int)
    (s1 s : SolverState) (r c : Nat)
    (hsum : solverColSum g s1 c = solverColSum g s c)
    (hd : s1.deleted r c = s.deleted r c)
    (hc : s1.confirmed r c = s.confirmed r c) :
    (colForcedUpdate g colT s1 c).deleted r c =
      (colForcedUpdate g colT s c).deleted r c ∧
    (colForcedUpdate g colT s1 c).confirmed r c =
      (colForcedUpdate g colT s c).confirmed r c := by
  simp only [colForcedUpdate, hsum]
  split_ifs <;> constructor <;> simp only [hd, hc]

lemma nodup_split_not_mem {l1 l2 : List Nat} {r : Nat}
    (h : (l1 ++ r :: l2).Nodup) : r ∉ l1 ∧ r ∉ l2 := by
  rw [List.nodup_append] at h
  exact ⟨fun hmem => h.2.2 hmem (List.mem_cons_self r l2),
    (List.nodup_cons.mp h.2.1).1⟩

lemma applyForcedMovesRows_at_row (g : Grid) (rowT : List Int)
    (s : SolverState) (r c : Nat) (hr : r < 7) :
    (applyForcedMovesRows g rowT s).deleted r c =
      (rowForcedUpdate g rowT s r).deleted r c ∧
    (applyForcedMovesRows g rowT s).confirmed r c =
      (rowForcedUpdate g rowT s r).confirmed r c := by
  obtain ⟨l1, l2, hsplit⟩ := List.append_of_mem (List.mem_range.mpr hr)
  have hnodup : (List.range 7).Nodup := List.nodup_range 7
  rw [hsplit] at hnodup
  obtain ⟨h1, h2⟩ := nodup_split_not_mem hnodup
  unfold applyForcedMovesRows
  rw [hsplit, List.foldl_append, List.foldl_cons]
  have hpre : ∀ c', (l1.foldl (rowForcedUpdate g rowT) s).deleted r c' = s.deleted r c' ∧
      (l1.foldl (rowForcedUpdate g rowT) s).confirmed r c' = s.confirmed r c' :=
    fun c' => foldlRows_other g rowT r c' l1 h1 s
  have hsum : solverRowSum g (l1.foldl (rowForcedUpdate g rowT) s) r = solverRowSum g s r :=
    solverRowSum_congr g _ s r (fun c' _ => (hpre c').1)
  have hcong := rowForcedUpdate_row_congr g rowT _ s r c hsum (hpre c).1 (hpre c).2
  have hpost := foldlRows_other g rowT r c l2 h2
    (rowForcedUpdate g rowT (l1.foldl (rowForcedUpdate g rowT) s) r)
  exact ⟨hpost.1.trans hcong.1, hpost.2.trans hcong.2⟩

lemma applyForcedMovesCols_at_col (g : Grid) (colT : List Int)
    (s : SolverState) (r c : Nat) (hc : c < 7) :
    (applyForcedMovesCols g colT s).deleted r c =
      (colForcedUpdate g colT s c).deleted r c ∧
    (applyForcedMovesCols g colT s).confirmed r c =
      (colForcedUpdate g colT s c).confirmed r c := by
  obtain ⟨l1, l2, hsplit⟩ := List.append_of_mem (List.mem_range.mpr hc)
  have hnodup : (List.range 7).Nodup := List.nodup_range 7
  rw [hsplit] at hnodup
  obtain ⟨h1, h2⟩ := nodup_split_not_mem hnodup
  unfold applyForcedMovesCols
  rw [hsplit, List.foldl_append, List.foldl_cons]
  have hpre : ∀ r', (l1.foldl (colForcedUpdate g colT) s).deleted r' c = s.deleted r' c ∧
      (l1.foldl (colForcedUpdate g colT) s).confirmed r' c = s.confirmed r' c :=
    fun r' => foldlCols_other g colT r' c l1 h1 s
  have hsum : solverColSum g (l1.foldl (colForcedUpdate g colT) s) c = solverColSum g s c :=
    solverColSum_congr g _ s c (fun r' _ => (hpre r').1)
  have hcong := colForcedUpdate_col_congr g colT _ s r c hsum (hpre r).1 (hpre r).2
  have hpost := foldlCols_other g colT r c l2 h2
    (colForcedUpdate g colT (l1.foldl (colForcedUpdate g colT) s) c)
  exact ⟨hpost.1.trans hcong.1, hpost.2.trans hcong.2⟩

lemma colForcedUpdate_mono (g : Grid) (colT : List Int) (s : SolverState)
    (cp r c : Nat) :
    (s.deleted r c = true → (colForcedUpdate g colT s cp).deleted r c = true) ∧
    (s.confirmed r c = true → (colForcedUpdate g colT s cp).confirmed r c = true) := by
  simp only [colForcedUpdate]
  split_ifs <;> constructor <;> intro h <;> simp [h]

lemma foldlCols_mono (g : Grid) (colT : List Int) (r c : Nat) :
    ∀ (l : List Nat) (s : SolverState),
      (s.deleted r c = true → (l.foldl (colForcedUpdate g colT) s).deleted r c = true) ∧
      (s.confirmed r c = true → (l.foldl (colForcedUpdate g colT) s).confirmed r c = true)
  | [], _ => ⟨id, id⟩
  | a :: l, s => by
      have ih := foldlCols_mono g colT r c l (colForcedUpdate g colT s a)
      have hmono := colForcedUpdate_mono g colT s a r c
      simp only [List.foldl_cons]
      exact ⟨fun h => ih.1 (hmono.1 h), fun h => ih.2 (hmono.2 h)⟩

lemma rowForcedUpdate_fires (g : Grid) (rowT : List Int) (s : SolverState)
    (r c : Nat) (hc : c < 7)
    (hexcess : 0 < solverRowSum g s r - rowT.getD r 0)
    (hdel : s.deleted r c = false) (hconf : s.confirmed r c = false) :
    (g r c = solverRowSum g s r - rowT.getD r 0 →
      (rowForcedUpdate g rowT s r).deleted r c = true) ∧
    (solverRowSum g s r - rowT.getD r 0 < g r c →
      (rowForcedUpdate g rowT s r).confirmed r c = true) := by
  constructor
  · intro hval
    simp only [rowForcedUpdate]
    rw [if_pos hexcess]
    exact if_pos ⟨rfl, hc, hdel, hconf, hval⟩
  · intro hgt
    have hguard : solverRowSum g s r - g r c < rowT.getD r 0 := by omega
    simp only [rowForcedUpdate]
    rw [if_pos hexcess]
    exact if_pos ⟨rfl, hc, hdel, hconf, hgt, hguard⟩

lemma colForcedUpdate_fires (g : Grid) (colT : List Int) (s : SolverState)
    (r c : Nat) (hr : r < 7)
    (hexcess : 0 < solverColSum g s c - colT.getD c 0)
    (hdel : s.deleted r c = false) (hconf : s.confirmed r c = false) :
    (g r c = solverColSum g s c - colT.getD c 0 →
      (colForcedUpdate g colT s c).deleted r c = true) ∧
    (solverColSum g s c - colT.getD c 0 < g r c →
      (colForcedUpdate g colT s c).confirmed r c = true) := by
  constructor
  · intro hval
    simp only [colForcedUpdate]
    rw [if_pos hexcess]
    exact if_pos ⟨rfl, hr, hdel, hconf, hval⟩
  · intro hgt
    have hguard : solverColSum g s c - g r c < colT.getD c 0 := by omega
    simp only [colForcedUpdate]
    rw [if_pos hexcess]
    exact if_pos ⟨rfl, hr, hdel, hconf, hgt, hguard⟩

/-- C5: one application of the forced-move rule.  Row form: when a row's
kept-sum exceeds its target by `excess > 0`, `applyForcedMoves` deletes
every cell of that row that was undecided with value exactly `excess`, and
confirms every such cell with value strictly greater than `excess`.
Column form: the column pass (one application of the rule to a column with
positive excess) does the same for the column's undecided cells. -/
theorem c5_forced_move_rule :
    (∀ (g : Grid) (rowT colT : List Int) (s : SolverState) (r : Nat), r < 7 →
      0 < solverRowSum g s r - rowT.getD r 0 →
      ∀ c, c < 7 → s.deleted r c = false → s.confirmed r c = false →
        (g r c = solverRowSum g s r - rowT.getD r 0 →
          (applyForcedMoves g rowT colT s).deleted r c = true) ∧
        (solverRowSum g s r - rowT.getD r 0 < g r c →
          (applyForcedMoves g rowT colT s).confirmed r c = true)) ∧
    (∀ (g : Grid) (colT : List Int) (s : SolverState) (c : Nat), c < 7 →
      0 < solverColSum g s c - colT.getD c 0 →
      ∀ r, r < 7 → s.deleted r c = false → s.confirmed r c = false →
        (g r c = solverColSum g s c - colT.getD c 0 →
          (applyForcedMovesCols g colT s).deleted r c = true) ∧
        (solverColSum g s c - colT.getD c 0 < g r c →
          (applyForcedMovesCols g colT s).confirmed r c = true)) := by
  constructor
  · intro g rowT colT s r hr hexcess c hc hdel hconf
    have hrow := applyForcedMovesRows_at_row g rowT s r c hr
    have hfire := rowForcedUpdate_fires g rowT s r c hc hexcess hdel hconf
    have hmono := foldlCols_mono g colT r c (List.range 7)
      (applyForcedMovesRows g rowT s)
    constructor
    · intro hval
      unfold applyForcedMoves applyForcedMovesCols
      exact hmono.1 (hrow.1.trans (hfire.1 hval))
    · intro hgt
      unfold applyForcedMoves applyForcedMovesCols
      exact hmono.2 (hrow.2.trans (hfire.2 hgt))
  · intro g colT s c hc hexcess r hr hdel hconf
    have hcol := applyForcedMovesCols_at_col g colT s r c hc
    have hfire := colForcedUpdate_fires g colT s r c hr hexcess hdel hconf
    constructor
    · intro hval
      exact hcol.1.trans (hfire.1 hval)
    · intro hgt
      exact hcol.2.trans (hfire.2 hgt)

/-- The grid of the spec's forced-deletion example: row 0 is
`[2, 3, 3, 3, 3, 3, 3]` with kept-sum 20. -/
def wSolverGrid : Grid :=
  fun i j => if i = 0 then (if j = 0 then 2 else 3) else 1

/-- Row targets giving row 0 a target of 18 (kept-sum 20, excess 2). -/
def wRowTargets : List Int := [18, 0, 0, 0, 0, 0, 0]

/-- Column targets for the C5 witness (values irrelevant to the row rule). -/
def wColTargets : List Int := [0, 0, 0, 0, 0, 0, 0]

/-- The all-undecided solver state. -/
def wSolverState : SolverState :=
  { deleted := allFalseMask, confirmed := allFalseMask }

/-- Witness for C5: the spec's example instance — target 18, kept-sum 20
(excess 2), an undecided cell of value 2 is deleted by one application of
`applyForcedMoves`. -/
theorem c5_forced_move_rule_witness :
    (0 < solverRowSum wSolverGrid wSolverState 0 - wRowTargets.getD 0 0) ∧
    (applyForcedMoves wSolverGrid wRowTargets wColTargets wSolverState).deleted 0 0
      = true :=
  ⟨by decide,
   (c5_forced_move_rule.1 wSolverGrid wRowTargets wColTargets wSolverState 0
      (by norm_num) (by decide) 0 (by norm_num) rfl rfl).1 (by decide)⟩

/-- Witness for C8's amended theorem: instantiated at the unrecognized
difficulty "mystery" and a concrete family of draws. -/
theorem c8_unrecognized_uses_medium_witness :
    settingsForP1 "mystery" = settingsForP1 "medium" ∧
    attemptGenerationP1 "mystery" zeroDrawsP1 =
      (attemptGenerationP1 "medium" zeroDrawsP1).map
        (fun p => { p with difficulty := "mystery" }) ∧
    generateFallbackPuzzleP1 "mystery" =
      { generateFallbackPuzzleP1 "medium" with difficulty := "mystery" } :=
  ⟨(c8_unrecognized_uses_medium "mystery" (by decide) (by decide) (by decide)).1,
   (c8_unrecognized_uses_medium "mystery" (by decide) (by decide) (by decide)).2.2.2.1
     zeroDrawsP1,
   (c8_unrecognized_uses_medium "mystery" (by decide) (by decide) (by decide)).2.2.2.2⟩

/-- Witness for C10: the theorem applied to two concrete states that agree
on grid, targets and deletions but have opposite confirmed matrices. -/
theorem c10_checkwin_ignores_confirmed_witness :
    (∀ r, wConfirmedState.getCurrentRowSum r = initialGameState.getCurrentRowSum r) ∧
    wConfirmedState.checkWin = initialGameState.checkWin :=
  ⟨(c10_checkwin_ignores_confirmed wConfirmedState initialGameState
      rfl rfl rfl rfl).1,
   (c10_checkwin_ignores_confirmed wConfirmedState initialGameState
      rfl rfl rfl rfl).2.2⟩

end Deduct

